import Mathlib

/-!
Verification of the session-orchestrator core of the assistive-device
repository (button debounce, audio-capture lifecycle, playback fallback,
LLM client response handling, and the main processing pipeline in
`main.py`).

Each definition is a shallow embedding of the corresponding Python
function; machine-level concerns (threads, real time) appear as explicit
state passing and millisecond timestamps, and fallible Python calls
return `Option` / `Except`.  Definitions come first, theorems follow.
-/

/-- A configuration value as stored in the dictionaries of `config.py`:
either a string or an integer. -/
inductive ConfigVal
  | str (s : String)
  | nat (n : Nat)
deriving DecidableEq

/-- Python `d[k]` on an association list: `some v` when the key is
present (first binding wins), `none` for the KeyError branch. -/
def dictLookup (k : String) (d : List (String × ConfigVal)) : Option ConfigVal :=
  d.lookup k

/-- Embedding of `config.BUTTON_CONFIG` (config.py lines 33-36): keys
`pin` and `debounce_time_ms` only. -/
def BUTTON_CONFIG : List (String × ConfigVal) :=
  [("pin", .nat 17), ("debounce_time_ms", .nat 500)]

/-- Embedding of `config.PLAYBACK_CONFIG` (config.py lines 50-55): keys
`primary_method`, `fallback_method`, `respeaker_device_index`,
`chunk_size` only. -/
def PLAYBACK_CONFIG : List (String × ConfigVal) :=
  [("primary_method", .str "aplay"), ("fallback_method", .str "pyaudio"),
   ("respeaker_device_index", .nat 2), ("chunk_size", .nat 1024)]

/-- Embedding of `ButtonHandler.__init__` (button_handler.py lines
45-46): reads `BUTTON_CONFIG["pin"]` then `BUTTON_CONFIG["debounce_ms"]`;
a missing key raises KeyError, modelled as `none`. -/
def ButtonHandler.init : Option (ConfigVal × ConfigVal) := do
  let pin ← dictLookup "pin" BUTTON_CONFIG
  let debounce ← dictLookup "debounce_ms" BUTTON_CONFIG
  return (pin, debounce)

/-- Embedding of `AudioPlayback.__init__` (audio_playback.py lines
24-25): reads `PLAYBACK_CONFIG["tool"]` then
`PLAYBACK_CONFIG["fallback"]`. -/
def AudioPlayback.init : Option (ConfigVal × ConfigVal) := do
  let tool ← dictLookup "tool" PLAYBACK_CONFIG
  let fb ← dictLookup "fallback" PLAYBACK_CONFIG
  return (tool, fb)

/-- A GPIO level as read from the button pin: HIGH is idle (pull-up),
LOW is pressed. -/
inductive Level
  | high
  | low
deriving DecidableEq

/-- The mutable state of `ButtonHandler` used by `_polling_loop`
(button_handler.py lines 125-156): the previously sampled level, the
timestamp (ms) of the last accepted press, and the timestamps of the
accepted presses so far (each one a callback invocation). -/
structure ButtonState where
  last_state : Level
  last_press_time : Nat
  events : List Nat
deriving DecidableEq

/-- One iteration of `ButtonHandler._polling_loop` (lines 134-153) on a
sample `(t, cur)`: a falling edge (HIGH then LOW) whose time is at
least `debounce_ms` after the last accepted press is accepted — the
anchor moves to `t` and the callback fires; a falling edge inside the
window is suppressed and leaves the anchor alone; in every case
`last_state` is updated to the sampled level.  The float comparison
`current_time - last_press_time >= debounce_ms / 1000` is rendered in
milliseconds as `last_press_time + debounce ≤ t`. -/
def pollStep (debounce : Nat) (st : ButtonState) (sample : Nat × Level) : ButtonState :=
  if st.last_state = .high ∧ sample.2 = .low then
    if st.last_press_time + debounce ≤ sample.1 then
      { last_state := sample.2, last_press_time := sample.1,
        events := st.events ++ [sample.1] }
    else
      { st with last_state := sample.2 }
  else
    { st with last_state := sample.2 }

/-- Running `_polling_loop` over a finite list of timestamped samples. -/
def pollRun (debounce : Nat) (st : ButtonState) (samples : List (Nat × Level)) :
    ButtonState :=
  samples.foldl (pollStep debounce) st

/-- Initial handler state (button_handler.py lines 49-50):
`last_press_time = 0`, idle line. -/
def buttonInit : ButtonState :=
  { last_state := .high, last_press_time := 0, events := [] }

/-- The C2 scenario: three raw falling edges 50 ms apart (edges at
1000, 1050 and 1100 ms, the line returning to idle in between). -/
def threeEdges : List (Nat × Level) :=
  [(1000, .low), (1025, .high), (1050, .low), (1075, .high), (1100, .low)]

/-- The top-level attribute names that `config.py` actually defines
(its module-level assignments and the `Config` class). -/
def configModuleAttrs : List String :=
  ["AUDIO_CONFIG", "RECORDING_CONFIG", "IMAGE_CONFIG", "BUTTON_CONFIG",
   "LLM_API_CONFIG", "PLAYBACK_CONFIG", "LOGGING_CONFIG", "SYSTEM_CONFIG",
   "Config"]

/-- The mutable state of an `AudioRecorder` (audio_recorder.py lines
24-42): the recording flag, the accumulated PCM frames (each a byte
sequence), the output path chosen at start, and the audio format taken
from `AUDIO_CONFIG` at construction. -/
structure RecorderState where
  is_recording : Bool
  frames : List (List Nat)
  output_file : Option String
  channels : Nat
  sample_rate : Nat
  sampwidth : Nat
deriving DecidableEq

/-- Embedding of `AudioRecorder.start_recording` (audio_recorder.py
lines 78-121): if a recording is already in progress it returns `None`
and leaves the state untouched (lines 83-85); otherwise the body reads
`config.FILE_PATTERNS["audio_recording"]` (line 90) — `config.py`
defines no `FILE_PATTERNS` attribute, so the body raises
AttributeError, which the `except` clause turns into `None` after
clearing the flag (lines 118-121). -/
def RecorderState.start_recording (rec : RecorderState) (freshFile : String) :
    Option String × RecorderState :=
  if rec.is_recording then
    (none, rec)
  else if "FILE_PATTERNS" ∈ configModuleAttrs then
    (some freshFile,
     { rec with is_recording := true, frames := [], output_file := some freshFile })
  else
    (none, { rec with is_recording := false })

/-- Outcome of one blocking device read inside the capture loop:
either a frame of data or a device error (a raised exception). -/
inductive ReadResult
  | ok (data : List Nat)
  | err
deriving DecidableEq

/-- Embedding of `AudioRecorder._record_audio` (audio_recorder.py lines
123-134) run against a finite schedule of device reads: while
`is_recording` holds, each successful read appends its frame; a device
error terminates the loop early and clears `is_recording` (the `except`
clause, line 134). -/
def record_audio (rec : RecorderState) : List ReadResult → RecorderState
  | [] => rec
  | r :: rs =>
    if rec.is_recording then
      match r with
      | .ok d => record_audio { rec with frames := rec.frames ++ [d] } rs
      | .err => { rec with is_recording := false }
    else
      rec

/-- The WAV artifact written by `stop_recording`: the header fields
passed to the `wave` module and the payload `b''.join(frames)`. -/
structure WavArtifact where
  path : String
  numChannels : Nat
  sampleRate : Nat
  sampWidth : Nat
  payload : List Nat
deriving DecidableEq

/-- Embedding of `AudioRecorder.stop_recording` (audio_recorder.py
lines 136-175): returns `None` at once when `is_recording` is already
false (lines 141-143); otherwise clears the flag, joins the capture
thread, and — when the frame list is non-empty and an output file was
chosen — writes a WAV file whose header carries the configured channel
count, sample width and rate and whose payload is the concatenation of
the frames (lines 159-168); with no frames it returns `None` (lines
169-171). -/
def RecorderState.stop_recording (rec : RecorderState) :
    Option WavArtifact × RecorderState :=
  if rec.is_recording = false then
    (none, rec)
  else
    let rec' := { rec with is_recording := false }
    match rec.output_file with
    | some f =>
      if rec.frames ≠ [] then
        (some { path := f, numChannels := rec.channels,
                sampleRate := rec.sample_rate, sampWidth := rec.sampwidth,
                payload := rec.frames.flatten }, rec')
      else
        (none, rec')
    | none => (none, rec')

/-- The sticky-fallback flag of `AudioPlayback` (audio_playback.py
line 26). -/
structure PlaybackState where
  use_fallback : Bool
deriving DecidableEq

/-- Which playback path a `play_audio` call went through. -/
inductive PlayMethod
  | aplay
  | pyaudio
deriving DecidableEq

/-- Environment of one `play_audio` call: whether the file exists,
whether the aplay subprocess would succeed, and whether the PyAudio
path would succeed. -/
structure PlayEnv where
  fileExists : Bool
  aplayOk : Bool
  pyaudioOk : Bool
deriving DecidableEq

/-- Embedding of `AudioPlayback.play_audio` (audio_playback.py lines
30-57): a missing file returns False; otherwise, unless `use_fallback`
is set, the aplay path is tried first and on failure the flag is set
and the PyAudio fallback is used; with the flag set the call goes
straight to PyAudio.  Returns ((result, new state), methods tried). -/
def play_audio (env : PlayEnv) (st : PlaybackState) :
    (Bool × PlaybackState) × List PlayMethod :=
  if env.fileExists = false then
    ((false, st), [])
  else if st.use_fallback = false then
    if env.aplayOk then
      ((true, st), [.aplay])
    else
      ((env.pyaudioOk, { use_fallback := true }), [.aplay, .pyaudio])
  else
    ((env.pyaudioOk, st), [.pyaudio])

/-- A sequence of `play_audio` calls threaded through the playback
state, collecting every method tried. -/
def playMany (envs : List PlayEnv) (st : PlaybackState) :
    PlaybackState × List PlayMethod :=
  match envs with
  | [] => (st, [])
  | e :: es =>
    let r := play_audio e st
    let rest := playMany es r.1.2
    (rest.1, r.2 ++ rest.2)

/-- Outcome of probing `aplay --version` in `test_playback`: exit code
0, a nonzero exit code, or FileNotFoundError (aplay absent). -/
inductive AplayProbe
  | ok
  | failCode
  | notFound
deriving DecidableEq

/-- Embedding of `AudioPlayback.test_playback` (audio_playback.py lines
165-195): exit code 0 reports success; a nonzero exit code reports
failure without touching the flag; FileNotFoundError sets
`use_fallback` (lines 189-192). -/
def test_playback : AplayProbe → PlaybackState → Bool × PlaybackState
  | .ok, st => (true, st)
  | .failCode, st => (false, st)
  | .notFound, _ => (false, { use_fallback := true })

/-- Python `dict.get(k, dflt)` on an association list of string
values. -/
def jsonGet (k : String) (j : List (String × String)) (dflt : String) : String :=
  match j.lookup k with
  | some v => v
  | none => dflt

/-- Embedding of the response handling of `LLMClient.analyze_image`
(llm_client.py lines 115-127) on the decoded JSON object:
`result.get('description', result.get('analysis', ''))`, returning the
string when it is truthy (non-empty) and `None` otherwise. -/
def analyze_image_extract (j : List (String × String)) : Option String :=
  let description := jsonGet "description" j (jsonGet "analysis" j "")
  if description = "" then none else some description

/-- The LED states of `LEDController` (led_controller.py lines 50-55),
which `main.py` uses as the session's status signal. -/
inductive LedState
  | idle
  | recording
  | capturing
  | processing
  | speaking
  | error
deriving DecidableEq

/-- The orchestrator flags and current LED of `DisabilitySupportSystem`
(main.py lines 59-64). -/
structure SysState where
  is_recording : Bool
  is_processing : Bool
  led : LedState
deriving DecidableEq

/-- An operation invoked by the orchestrator: the collaborators'
entry points called during a session. -/
inductive Call
  | recorderStart
  | recorderStop
  | captureImage
  | transcribe
  | analyzeRequest
  | generateSpeech
  | playAudio
deriving DecidableEq

/-- One observable event of a run: a collaborator call or an LED state
change. -/
inductive Ev
  | call (c : Call)
  | led (s : LedState)
deriving DecidableEq

/-- The results the external collaborators would return during one run
of `stop_recording_and_process`: the saved-audio path, the captured
image path, the transcription, the TTS artifact, and the playback
outcome.  `none` (and, where Python tests truthiness, the empty
string) is the failure case. -/
structure PipelineEnv where
  stopResult : Option String
  imageResult : Option String
  transcribeResult : Option String
  ttsResult : Option String
  playOk : Bool
deriving DecidableEq

/-- Python falsiness of an optional string: `None` and `""` both fail
an `if not x` test. -/
def falsyStr : Option String → Bool
  | none => true
  | some s => s.isEmpty

/-- The call `self.llm_client.analyze_image(image_file, prompt=user_question)`
at main.py line 218.  `LLMClient.analyze_image` (llm_client.py line 86)
is declared `def analyze_image(self, image_file_path)` — it has no
`prompt` parameter — so in Python this call raises
TypeError (unexpected keyword argument) before the body of
`analyze_image` runs or any request is sent. -/
def analyze_image_call (_img _q : String) : Except Unit (Option String) :=
  .error ()

/-- Embedding of `DisabilitySupportSystem.stop_recording_and_process`
(main.py lines 148-263).  Each failing step sets the LED to error and
returns; the `finally` clause (lines 257-260) clears `is_processing`
and sets the LED to idle on every path.  Step 4 goes through
`analyze_image_call`, whose TypeError lands in the `except` clause
(lines 252-255); the branch mirroring lines 219-250 (steps 5-6) is kept
as the `Except.ok` arm. -/
def stop_recording_and_process (env : PipelineEnv) (st : SysState) :
    SysState × List Ev :=
  let st1 : SysState := { st with is_recording := false, is_processing := true }
  match env.stopResult with
  | none =>
    ({ st1 with is_processing := false, led := .idle },
     [.call .recorderStop, .led .error, .led .idle])
  | some _audio =>
    match env.imageResult with
    | none =>
      ({ st1 with is_processing := false, led := .idle },
       [.call .recorderStop, .led .capturing, .call .captureImage,
        .led .error, .led .idle])
    | some img =>
      if falsyStr env.transcribeResult then
        ({ st1 with is_processing := false, led := .idle },
         [.call .recorderStop, .led .capturing, .call .captureImage,
          .led .processing, .call .transcribe, .led .error, .led .idle])
      else
        match analyze_image_call img (env.transcribeResult.getD "") with
        | .error _ =>
          ({ st1 with is_processing := false, led := .idle },
           [.call .recorderStop, .led .capturing, .call .captureImage,
            .led .processing, .call .transcribe, .led .error, .led .idle])
        | .ok r =>
          if falsyStr r then
            ({ st1 with is_processing := false, led := .idle },
             [.call .recorderStop, .led .capturing, .call .captureImage,
              .led .processing, .call .transcribe, .call .analyzeRequest,
              .led .error, .led .idle])
          else if falsyStr env.ttsResult then
            ({ st1 with is_processing := false, led := .idle },
             [.call .recorderStop, .led .capturing, .call .captureImage,
              .led .processing, .call .transcribe, .call .analyzeRequest,
              .call .generateSpeech, .led .error, .led .idle])
          else if env.playOk then
            ({ st1 with is_processing := false, led := .idle },
             [.call .recorderStop, .led .capturing, .call .captureImage,
              .led .processing, .call .transcribe, .call .analyzeRequest,
              .call .generateSpeech, .led .speaking, .call .playAudio,
              .led .idle])
          else
            ({ st1 with is_processing := false, led := .idle },
             [.call .recorderStop, .led .capturing, .call .captureImage,
              .led .processing, .call .transcribe, .call .analyzeRequest,
              .call .generateSpeech, .led .speaking, .call .playAudio,
              .led .error, .led .idle])

/-- Embedding of `DisabilitySupportSystem.start_recording` (main.py
lines 130-146): the LED goes to recording before the recorder is
started; on success `is_recording` is set; on failure the LED is set
to error and nothing resets it. -/
def main_start_recording (startResult : Option String) (st : SysState) :
    SysState × List Ev :=
  match startResult with
  | some _f =>
    ({ st with is_recording := true, led := .recording },
     [.led .recording, .call .recorderStart])
  | none =>
    ({ st with led := .error },
     [.led .recording, .call .recorderStart, .led .error])

/-- The collaborator results available to one button-press callback. -/
structure SysEnv where
  startResult : Option String
  pipe : PipelineEnv
deriving DecidableEq

/-- Embedding of `DisabilitySupportSystem.on_button_press` (main.py
lines 109-128): a press while `is_processing` holds is dropped;
otherwise the press toggles between starting a recording and running
the processing pipeline. -/
def on_button_press (env : SysEnv) (st : SysState) : SysState × List Ev :=
  if st.is_processing then
    (st, [])
  else if st.is_recording = false then
    main_start_recording env.startResult st
  else
    stop_recording_and_process env.pipe st

/-- C9: ButtonHandler reads `BUTTON_CONFIG["debounce_ms"]` while config
defines only `debounce_time_ms`, and AudioPlayback reads
`PLAYBACK_CONFIG["tool"]` and `PLAYBACK_CONFIG["fallback"]` while config
defines only `primary_method` and `fallback_method`; both constructors
therefore hit the dictionary lookup's error branch (KeyError)
unconditionally, before any button or playback operation can run. -/
theorem config_key_mismatch_raises :
    dictLookup "debounce_ms" BUTTON_CONFIG = none
    ∧ dictLookup "debounce_time_ms" BUTTON_CONFIG = some (.nat 500)
    ∧ dictLookup "tool" PLAYBACK_CONFIG = none
    ∧ dictLookup "fallback" PLAYBACK_CONFIG = none
    ∧ dictLookup "primary_method" PLAYBACK_CONFIG = some (.str "aplay")
    ∧ dictLookup "fallback_method" PLAYBACK_CONFIG = some (.str "pyaudio")
    ∧ ButtonHandler.init = none
    ∧ AudioPlayback.init = none := by
  decide

/-- Helper: a single poll step whose sample time lies strictly inside
the debounce window of the current anchor emits nothing and keeps the
anchor. -/
theorem pollStep_in_window (debounce : Nat) (st : ButtonState) (s : Nat × Level)
    (h : s.1 < st.last_press_time + debounce) :
    (pollStep debounce st s).events = st.events
    ∧ (pollStep debounce st s).last_press_time = st.last_press_time := by
  unfold pollStep
  by_cases he : st.last_state = .high ∧ s.2 = .low
  · simp only [he, if_pos, if_true]
    have : ¬ st.last_press_time + debounce ≤ s.1 := by omega
    simp [this]
  · simp [he]

/-- Helper: a run of samples all lying strictly inside the debounce
window of the current anchor emits no events and keeps the anchor. -/
theorem pollRun_in_window (debounce : Nat) (st : ButtonState)
    (samples : List (Nat × Level))
    (h : ∀ s ∈ samples, s.1 < st.last_press_time + debounce) :
    (pollRun debounce st samples).events = st.events
    ∧ (pollRun debounce st samples).last_press_time = st.last_press_time := by
  induction samples generalizing st with
  | nil => exact ⟨rfl, rfl⟩
  | cons s rest ih =>
    have hs : s.1 < st.last_press_time + debounce := h s (by simp)
    have hstep := pollStep_in_window debounce st s hs
    have hrest := ih (pollStep debounce st s) (by
      intro x hx
      rw [hstep.2]
      exact h x (by simp [hx]))
    have hdef : pollRun debounce st (s :: rest)
        = pollRun debounce (pollStep debounce st s) rest := rfl
    rw [hdef, hrest.1, hrest.2]
    exact hstep

/-- C2: once a press is accepted (anchoring the window at
`last_press_time`), every further sample — in particular every further
press transition — whose timestamp lies within the debounce window
produces no additional press event and does not move the anchor; and
the concrete scenario of 3 raw falling edges 50 ms apart under the
500 ms design window yields exactly 1 press event. -/
theorem debounce_window_suppresses :
    (∀ (w : Nat) (st : ButtonState) (samples : List (Nat × Level)),
      (∀ s ∈ samples, s.1 < st.last_press_time + w) →
      (pollRun w st samples).events = st.events
      ∧ (pollRun w st samples).last_press_time = st.last_press_time)
    ∧ (pollRun 500 buttonInit threeEdges).events = [1000] := by
  refine ⟨fun w st samples h => pollRun_in_window w st samples h, ?_⟩
  decide

/-- Witness for C2: the suppression clause applied at the state
reached right after the first accepted edge of the scenario, whose
remaining samples all lie inside the 500 ms window anchored at 1000. -/
theorem debounce_window_suppresses_witness :
    (pollRun 500 { last_state := .low, last_press_time := 1000, events := [1000] }
      [(1025, .high), (1050, .low), (1075, .high), (1100, .low)]).events = [1000] :=
  (debounce_window_suppresses.1 500
    { last_state := .low, last_press_time := 1000, events := [1000] }
    [(1025, .high), (1050, .low), (1075, .high), (1100, .low)]
    (by decide)).1

/-- C5: stopping a recorder that is mid-capture with a chosen output
file and a non-empty frame list of frames of `F` bytes each yields a
WAV artifact whose payload length is exactly `(number of frames) × F`
and whose header channel-count and sample-rate fields equal the
recorder's configured values. -/
theorem stop_recording_wav_shape (rec : RecorderState) (p : String) (F : Nat)
    (h1 : rec.is_recording = true) (h2 : rec.output_file = some p)
    (h3 : rec.frames ≠ []) (h4 : ∀ f ∈ rec.frames, f.length = F) :
    ∃ a : WavArtifact, rec.stop_recording.1 = some a
      ∧ a.payload.length = rec.frames.length * F
      ∧ a.numChannels = rec.channels
      ∧ a.sampleRate = rec.sample_rate
      ∧ a.path = p := by
  refine ⟨{ path := p, numChannels := rec.channels, sampleRate := rec.sample_rate,
            sampWidth := rec.sampwidth, payload := rec.frames.flatten }, ?_, ?_, rfl, rfl, rfl⟩
  · unfold RecorderState.stop_recording
    rw [h1]
    simp [h2, h3]
  · have hmap : rec.frames.map List.length
        = List.replicate (rec.frames.map List.length).length F := by
      apply List.eq_replicate_of_mem
      intro x hx
      obtain ⟨f, hf, hfl⟩ := List.mem_map.mp hx
      rw [← hfl]
      exact h4 f hf
    rw [List.length_flatten, hmap, List.sum_replicate, smul_eq_mul, List.length_map]

/-- Witness for C5: a recorder configured 16-bit/16kHz/mono holding 16
frames of 1024 bytes each yields a WAV artifact with payload size
16384 and header fields 1 channel / 16000 Hz. -/
theorem stop_recording_wav_shape_witness :
    ∃ a : WavArtifact,
      (RecorderState.stop_recording
        { is_recording := true, frames := List.replicate 16 (List.replicate 1024 0),
          output_file := some "question.wav", channels := 1, sample_rate := 16000,
          sampwidth := 2 }).1 = some a
      ∧ a.payload.length = 16384 ∧ a.numChannels = 1 ∧ a.sampleRate = 16000 := by
  obtain ⟨a, ha, hlen, hch, hr, _⟩ :=
    stop_recording_wav_shape
      { is_recording := true, frames := List.replicate 16 (List.replicate 1024 0),
        output_file := some "question.wav", channels := 1, sample_rate := 16000,
        sampwidth := 2 }
      "question.wav" 1024 rfl rfl
      (by simp only [ne_eq, List.replicate_eq_nil_iff]; decide)
      (by
        intro f hf
        rw [List.eq_of_mem_replicate hf]
        simp only [List.length_replicate])
  refine ⟨a, ha, ?_, hch, hr⟩
  rw [hlen]
  simp only [List.length_replicate]

/-- C6 counterexample: a device error mid-capture (the `except` clause
of `_record_audio`) clears `is_recording`, so a capture that recorded
one frame and then hit a device error returns `None` from
`stop_recording` — at least one frame was recorded, yet no artifact
path is returned, refuting the claimed "if and only if". -/
theorem stop_after_device_error_counterexample :
    (record_audio
      { is_recording := true, frames := [], output_file := some "question.wav",
        channels := 2, sample_rate := 16000, sampwidth := 2 }
      [.ok [7], .err]).frames.length = 1
    ∧ (RecorderState.stop_recording (record_audio
        { is_recording := true, frames := [], output_file := some "question.wav",
          channels := 2, sample_rate := 16000, sampwidth := 2 }
        [.ok [7], .err])).1 = none := by
  decide

/-- C6 amended: while the capture loop is still running, stopping
returns an artifact path iff at least one frame was recorded; and
whenever the loop has already terminated (in particular after a
mid-capture device failure), stop returns a capture error regardless
of the frames accumulated. -/
theorem stop_recording_some_iff_frames :
    (∀ rec : RecorderState, rec.is_recording = true →
      rec.output_file.isSome = true →
      (rec.stop_recording.1.isSome = true ↔ rec.frames ≠ []))
    ∧ (∀ rec : RecorderState, rec.is_recording = false →
      rec.stop_recording.1 = none) := by
  constructor
  · intro rec h1 h2
    obtain ⟨p, hp⟩ := Option.isSome_iff_exists.mp h2
    unfold RecorderState.stop_recording
    rw [h1]
    by_cases hf : rec.frames = [] <;> simp [hp, hf]
  · intro rec h1
    unfold RecorderState.stop_recording
    rw [h1]
    simp

/-- Witness for C6 amended: a live capture holding one frame yields an
artifact; the same capture with its frame list empty yields none. -/
theorem stop_recording_some_iff_frames_witness :
    (RecorderState.stop_recording
      { is_recording := true, frames := [[7]], output_file := some "question.wav",
        channels := 2, sample_rate := 16000, sampwidth := 2 }).1.isSome = true
    ∧ (RecorderState.stop_recording
      { is_recording := false, frames := [[7]], output_file := some "question.wav",
        channels := 2, sample_rate := 16000, sampwidth := 2 }).1 = none := by
  constructor
  · exact (stop_recording_some_iff_frames.1
      { is_recording := true, frames := [[7]], output_file := some "question.wav",
        channels := 2, sample_rate := 16000, sampwidth := 2 }
      rfl rfl).mpr (by decide)
  · exact stop_recording_some_iff_frames.2
      { is_recording := false, frames := [[7]], output_file := some "question.wav",
        channels := 2, sample_rate := 16000, sampwidth := 2 }
      rfl

/-- C4: the orchestrator's button handling is non-reentrant — a press
event arriving while `is_processing` is set is dropped without
queueing (state unchanged, no collaborator call, no LED change); and a
second `start_recording` on a recorder that is already capturing
returns `None` with the recorder state untouched. -/
theorem press_nonreentrant :
    (∀ (env : SysEnv) (st : SysState), st.is_processing = true →
      on_button_press env st = (st, []))
    ∧ (∀ (rec : RecorderState) (f : String), rec.is_recording = true →
      rec.start_recording f = (none, rec)) := by
  constructor
  · intro env st h
    unfold on_button_press
    rw [h]
    simp
  · intro rec f h
    unfold RecorderState.start_recording
    rw [h]
    simp

/-- Witness for C4: a press with the processing flag set is a no-op,
and a second recorder start while capturing returns none. -/
theorem press_nonreentrant_witness :
    on_button_press
      { startResult := some "a.wav",
        pipe := { stopResult := none, imageResult := none,
                  transcribeResult := none, ttsResult := none, playOk := false } }
      { is_recording := false, is_processing := true, led := .processing }
      = ({ is_recording := false, is_processing := true, led := .processing }, [])
    ∧ RecorderState.start_recording
        { is_recording := true, frames := [[7]], output_file := some "a.wav",
          channels := 2, sample_rate := 16000, sampwidth := 2 } "b.wav"
      = (none,
         { is_recording := true, frames := [[7]], output_file := some "a.wav",
           channels := 2, sample_rate := 16000, sampwidth := 2 }) :=
  ⟨press_nonreentrant.1
      { startResult := some "a.wav",
        pipe := { stopResult := none, imageResult := none,
                  transcribeResult := none, ttsResult := none, playOk := false } }
      { is_recording := false, is_processing := true, led := .processing } rfl,
   press_nonreentrant.2
      { is_recording := true, frames := [[7]], output_file := some "a.wav",
        channels := 2, sample_rate := 16000, sampwidth := 2 } "b.wav" rfl⟩

/-- C3: the pipeline short-circuits on failure — when the recorder
fails to save audio, nothing downstream runs; when image capture
fails, no remote stage runs; when transcription returns None or empty,
the analyze, synthesize and playback operations are never called; and
when synthesis fails, playback is never called. -/
theorem pipeline_short_circuits (env : PipelineEnv) (st : SysState) :
    (env.stopResult = none →
      Ev.call .captureImage ∉ (stop_recording_and_process env st).2
      ∧ Ev.call .transcribe ∉ (stop_recording_and_process env st).2
      ∧ Ev.call .analyzeRequest ∉ (stop_recording_and_process env st).2
      ∧ Ev.call .generateSpeech ∉ (stop_recording_and_process env st).2
      ∧ Ev.call .playAudio ∉ (stop_recording_and_process env st).2)
    ∧ (env.imageResult = none →
      Ev.call .transcribe ∉ (stop_recording_and_process env st).2
      ∧ Ev.call .analyzeRequest ∉ (stop_recording_and_process env st).2
      ∧ Ev.call .generateSpeech ∉ (stop_recording_and_process env st).2
      ∧ Ev.call .playAudio ∉ (stop_recording_and_process env st).2)
    ∧ (falsyStr env.transcribeResult = true →
      Ev.call .analyzeRequest ∉ (stop_recording_and_process env st).2
      ∧ Ev.call .generateSpeech ∉ (stop_recording_and_process env st).2
      ∧ Ev.call .playAudio ∉ (stop_recording_and_process env st).2)
    ∧ (falsyStr env.ttsResult = true →
      Ev.call .playAudio ∉ (stop_recording_and_process env st).2) := by
  rcases env with ⟨stopR, imgR, trR, ttsR, pOk⟩
  refine ⟨?_, ?_, ?_, ?_⟩
  · intro h
    subst h
    simp [stop_recording_and_process]
  · intro h
    subst h
    cases stopR <;> simp [stop_recording_and_process]
  · intro h
    cases stopR <;> cases imgR <;>
      simp_all [stop_recording_and_process]
  · intro h
    cases stopR <;> cases imgR <;>
      simp_all [stop_recording_and_process, analyze_image_call]

/-- Witness for C3: a run whose transcription came back empty invokes
none of the three later stages. -/
theorem pipeline_short_circuits_witness :
    Ev.call .analyzeRequest ∉ (stop_recording_and_process
      { stopResult := some "question.wav", imageResult := some "scene.jpg",
        transcribeResult := some "", ttsResult := some "answer.wav", playOk := true }
      { is_recording := true, is_processing := false, led := .recording }).2
    ∧ Ev.call .generateSpeech ∉ (stop_recording_and_process
      { stopResult := some "question.wav", imageResult := some "scene.jpg",
        transcribeResult := some "", ttsResult := some "answer.wav", playOk := true }
      { is_recording := true, is_processing := false, led := .recording }).2
    ∧ Ev.call .playAudio ∉ (stop_recording_and_process
      { stopResult := some "question.wav", imageResult := some "scene.jpg",
        transcribeResult := some "", ttsResult := some "answer.wav", playOk := true }
      { is_recording := true, is_processing := false, led := .recording }).2 :=
  (pipeline_short_circuits
    { stopResult := some "question.wav", imageResult := some "scene.jpg",
      transcribeResult := some "", ttsResult := some "answer.wav", playOk := true }
    { is_recording := true, is_processing := false, led := .recording }).2.2.1 rfl

/-- C1 (evaluating the code at the failing input): in a session where
every earlier stage succeeds — recording stops with an artifact, the
image is captured, transcription returns a non-empty question — the
analyze operation is never invoked and the session falls into the
error branch instead of producing an answer: main.py line 218 passes
`prompt=user_question` to `LLMClient.analyze_image`, whose signature
(llm_client.py line 86) has no such parameter, so the call raises
TypeError before any analyze request is sent. -/
theorem analyze_stage_never_runs :
    Ev.call .analyzeRequest ∉ (stop_recording_and_process
      { stopResult := some "question.wav", imageResult := some "scene.jpg",
        transcribeResult := some "what am I looking at",
        ttsResult := some "answer.wav", playOk := true }
      { is_recording := true, is_processing := false, led := .recording }).2
    ∧ Ev.call .generateSpeech ∉ (stop_recording_and_process
      { stopResult := some "question.wav", imageResult := some "scene.jpg",
        transcribeResult := some "what am I looking at",
        ttsResult := some "answer.wav", playOk := true }
      { is_recording := true, is_processing := false, led := .recording }).2
    ∧ Ev.led .error ∈ (stop_recording_and_process
      { stopResult := some "question.wav", imageResult := some "scene.jpg",
        transcribeResult := some "what am I looking at",
        ttsResult := some "answer.wav", playOk := true }
      { is_recording := true, is_processing := false, led := .recording }).2 := by
  decide

/-- C7 counterexample: when starting the recording fails, the handler
sets the LED to error and returns — nothing ever brings it back to
idle automatically — and the very next press is accepted and starts a
new capture, re-entering Recording while the error is still showing. -/
theorem error_after_start_failure_sticks :
    (on_button_press
      { startResult := none,
        pipe := { stopResult := none, imageResult := none,
                  transcribeResult := none, ttsResult := none, playOk := false } }
      { is_recording := false, is_processing := false, led := .idle }).1
      = { is_recording := false, is_processing := false, led := .error }
    ∧ (on_button_press
        { startResult := some "question.wav",
          pipe := { stopResult := none, imageResult := none,
                    transcribeResult := none, ttsResult := none, playOk := false } }
        { is_recording := false, is_processing := false, led := .error }).1.led
      = .recording
    ∧ Ev.call .recorderStart ∈ (on_button_press
        { startResult := some "question.wav",
          pipe := { stopResult := none, imageResult := none,
                    transcribeResult := none, ttsResult := none, playOk := false } }
        { is_recording := false, is_processing := false, led := .error }).2 := by
  decide

/-- C7 amended: every error arising inside the processing pipeline
(capture failure, stage failure, playback failure) is signalled and
the handler's `finally` clause returns the session to Idle — flags
cleared, LED idle — by the time the run completes, and presses
arriving while the processing flag is set are dropped; the exception
is a failure to start recording, where the error indication persists
(see the counterexample). -/
theorem pipeline_error_recovers_to_idle :
    (∀ (env : PipelineEnv) (st : SysState),
      (stop_recording_and_process env st).1
        = { is_recording := false, is_processing := false, led := .idle })
    ∧ (∀ (env : PipelineEnv) (st : SysState),
      env.stopResult = none ∨ env.imageResult = none
        ∨ falsyStr env.transcribeResult = true →
      Ev.led .error ∈ (stop_recording_and_process env st).2)
    ∧ (∀ (env : SysEnv) (st : SysState), st.is_processing = true →
      on_button_press env st = (st, [])) := by
  refine ⟨?_, ?_, ?_⟩
  · intro env st
    rcases env with ⟨stopR, imgR, trR, ttsR, pOk⟩
    cases stopR <;> cases imgR <;>
      simp [stop_recording_and_process, analyze_image_call]
  · intro env st h
    rcases env with ⟨stopR, imgR, trR, ttsR, pOk⟩
    rcases h with h | h | h
    · subst h
      simp [stop_recording_and_process]
    · subst h
      cases stopR <;> simp [stop_recording_and_process]
    · cases stopR <;> cases imgR <;> simp_all [stop_recording_and_process]
  · intro env st h
    unfold on_button_press
    rw [h]
    simp

/-- Witness for C7 amended: a run whose transcription failed ends with
flags cleared and the LED idle, the error having been signalled, and a
press during processing is a no-op. -/
theorem pipeline_error_recovers_to_idle_witness :
    (stop_recording_and_process
      { stopResult := some "question.wav", imageResult := some "scene.jpg",
        transcribeResult := none, ttsResult := none, playOk := false }
      { is_recording := true, is_processing := false, led := .recording }).1
      = { is_recording := false, is_processing := false, led := .idle }
    ∧ Ev.led .error ∈ (stop_recording_and_process
      { stopResult := some "question.wav", imageResult := some "scene.jpg",
        transcribeResult := none, ttsResult := none, playOk := false }
      { is_recording := true, is_processing := false, led := .recording }).2
    ∧ on_button_press
      { startResult := some "a.wav",
        pipe := { stopResult := none, imageResult := none,
                  transcribeResult := none, ttsResult := none, playOk := false } }
      { is_recording := false, is_processing := true, led := .speaking }
      = ({ is_recording := false, is_processing := true, led := .speaking }, []) :=
  ⟨pipeline_error_recovers_to_idle.1
      { stopResult := some "question.wav", imageResult := some "scene.jpg",
        transcribeResult := none, ttsResult := none, playOk := false }
      { is_recording := true, is_processing := false, led := .recording },
   pipeline_error_recovers_to_idle.2.1
      { stopResult := some "question.wav", imageResult := some "scene.jpg",
        transcribeResult := none, ttsResult := none, playOk := false }
      { is_recording := true, is_processing := false, led := .recording }
      (Or.inr (Or.inr rfl)),
   pipeline_error_recovers_to_idle.2.2
      { startResult := some "a.wav",
        pipe := { stopResult := none, imageResult := none,
                  transcribeResult := none, ttsResult := none, playOk := false } }
      { is_recording := false, is_processing := true, led := .speaking } rfl⟩

/-- C8 counterexample: a response that carries its answer only under
the key `result` yields `None` from the analyze response handling —
llm_client.py line 120 probes `description` and `analysis` only — so
such a response is treated as a stage failure rather than returning
the answer. -/
theorem analyze_result_key_ignored :
    analyze_image_extract [("result", "a red apple")] = none := by
  decide

/-- C8 amended: the analyze operation returns the answer under
`description` when that key is present and non-empty; otherwise, when
`description` is absent, the answer under `analysis` when present and
non-empty; every other response — including one whose answer sits only
under `result`, one whose `description` is empty, or one with neither
key — yields None (a stage failure). -/
theorem analyze_extract_keys :
    (∀ (j : List (String × String)) (v : String),
      j.lookup "description" = some v → v ≠ "" → analyze_image_extract j = some v)
    ∧ (∀ (j : List (String × String)) (v : String),
      j.lookup "description" = none → j.lookup "analysis" = some v → v ≠ "" →
      analyze_image_extract j = some v)
    ∧ (∀ j : List (String × String),
      j.lookup "description" = none → j.lookup "analysis" = none →
      analyze_image_extract j = none)
    ∧ (∀ j : List (String × String),
      j.lookup "description" = some "" → analyze_image_extract j = none) := by
  refine ⟨?_, ?_, ?_, ?_⟩
  · intro j v h1 hv
    simp [analyze_image_extract, jsonGet, h1, hv]
  · intro j v h1 h2 hv
    simp [analyze_image_extract, jsonGet, h1, h2, hv]
  · intro j h1 h2
    simp [analyze_image_extract, jsonGet, h1, h2]
  · intro j h1
    simp [analyze_image_extract, jsonGet, h1]

/-- Witness for C8 amended: concrete responses under each clause. -/
theorem analyze_extract_keys_witness :
    analyze_image_extract [("description", "a cat")] = some "a cat"
    ∧ analyze_image_extract [("analysis", "a dog")] = some "a dog"
    ∧ analyze_image_extract [("answer", "ignored")] = none
    ∧ analyze_image_extract [("description", ""), ("analysis", "a dog")] = none :=
  ⟨analyze_extract_keys.1 [("description", "a cat")] "a cat" (by decide) (by decide),
   analyze_extract_keys.2.1 [("analysis", "a dog")] "a dog" (by decide) (by decide)
     (by decide),
   analyze_extract_keys.2.2.1 [("answer", "ignored")] (by decide) (by decide),
   analyze_extract_keys.2.2.2 [("description", ""), ("analysis", "a dog")] (by decide)⟩

/-- C10: the playback fallback is sticky — a `play_audio` call whose
primary aplay path fails sets `use_fallback`, the self-test sets it
when aplay is absent, and from any state with the flag set every
subsequent sequence of `play_audio` calls keeps the flag set and never
tries the aplay path again. -/
theorem fallback_sticky :
    (∀ (env : PlayEnv) (st : PlaybackState),
      env.fileExists = true → env.aplayOk = false → st.use_fallback = false →
      (play_audio env st).1.2.use_fallback = true)
    ∧ (∀ st : PlaybackState, (test_playback .notFound st).2.use_fallback = true)
    ∧ (∀ (envs : List PlayEnv) (st : PlaybackState), st.use_fallback = true →
      (playMany envs st).1.use_fallback = true
      ∧ PlayMethod.aplay ∉ (playMany envs st).2) := by
  refine ⟨?_, ?_, ?_⟩
  · intro env st h1 h2 h3
    simp [play_audio, h1, h2, h3]
  · intro st
    rfl
  · intro envs
    induction envs with
    | nil =>
      intro st h
      exact ⟨h, by simp [playMany]⟩
    | cons e es ih =>
      intro st h
      have hstep : (play_audio e st).1.2.use_fallback = true
          ∧ PlayMethod.aplay ∉ (play_audio e st).2 := by
        unfold play_audio
        rw [h]
        by_cases hf : e.fileExists = false <;> simp [hf, h]
      obtain ⟨ih1, ih2⟩ := ih (play_audio e st).1.2 hstep.1
      have hdef : playMany (e :: es) st
          = ((playMany es (play_audio e st).1.2).1,
             (play_audio e st).2 ++ (playMany es (play_audio e st).1.2).2) := rfl
      rw [hdef]
      refine ⟨ih1, ?_⟩
      intro hmem
      rcases List.mem_append.mp hmem with hm | hm
      · exact hstep.2 hm
      · exact ih2 hm

/-- Witness for C10: a failed aplay attempt sets the flag, and with
the flag set a later call uses only the PyAudio path. -/
theorem fallback_sticky_witness :
    (play_audio { fileExists := true, aplayOk := false, pyaudioOk := true }
      { use_fallback := false }).1.2.use_fallback = true
    ∧ (playMany [{ fileExists := true, aplayOk := true, pyaudioOk := true }]
        { use_fallback := true }).1.use_fallback = true
    ∧ PlayMethod.aplay ∉ (playMany
        [{ fileExists := true, aplayOk := true, pyaudioOk := true }]
        { use_fallback := true }).2 :=
  ⟨fallback_sticky.1 { fileExists := true, aplayOk := false, pyaudioOk := true }
      { use_fallback := false } rfl rfl rfl,
   (fallback_sticky.2.2 [{ fileExists := true, aplayOk := true, pyaudioOk := true }]
      { use_fallback := true } rfl).1,
   (fallback_sticky.2.2 [{ fileExists := true, aplayOk := true, pyaudioOk := true }]
      { use_fallback := true } rfl).2⟩
